import Mathlib

/-!
Shallow embedding of the meson-monitor bridge reconciliation engine
(repository locey/bridge_monitor, second evolution of main.go: the
resumable pull-scan design) together with the database layer from
database/db_init.go.

Modelling conventions:
* Go `float64` amount fields carry values produced by `float64(uint64)`
  conversions and are only ever compared for equality; they are modelled
  as the natural numbers they carry.
* Go `big.Int.Uint64` returns the low 64 bits of a non-negative value;
  it is modelled as `% 2 ^ 64`.
* The per-reqID database row is modelled as `Option Meson`; a whole
  database is `Nat → Option Meson` keyed by the numeric reqId (the Go
  code keys rows by `reqID.Hex()`, an injective encoding, carried here
  as a separate `reqIdHex` string stored in the record).
* A fallible database write is modelled by an explicit `dbOk` flag:
  when it is `false` the write fails and the stored state is unchanged.
-/

namespace BridgeMonitor

/-- A stored transfer record, mirroring `database.Meson` from
database/db_init.go (reqid, chain_a, chain_b, timestamp, amount_a,
amount_b, action_a, action_b, tx_hash_a, tx_hash_b, is_check). -/
structure Meson where
  reqID : String
  chainA : String
  chainB : String
  timestamp : Int
  amountA : Nat
  amountB : Nat
  actionA : String
  actionB : String
  txHashA : String
  txHashB : String
  isCheck : Bool
deriving Repr, DecidableEq

/-- meson_event from main.go: the two actions must be one burn and one
mint, in either order. -/
def meson_event (actionA actionB : String) : Bool :=
  (actionA == "TokenBurnExecuted" && actionB == "TokenMintExecuted") ||
  (actionA == "TokenMintExecuted" && actionB == "TokenBurnExecuted")

/-- The observable outcome of one `meson_handle` call: which error (if
any) it returns and which alert path it took.  `conflictChainB` is the
ConflictingSecondLeg alert+error, `mismatchedEvent` the mismatched
action-pair alert+error, `amountMismatch` the amount-mismatch
alert+error; `crossChainSuccess` is the informational success log. -/
inductive HandleResult where
  | conflictChainB
  | updateFailed
  | mismatchedEvent
  | amountMismatch
  | crossChainSuccess
  | insertFailed
  | inserted
deriving Repr, DecidableEq

/-- meson_handle from main.go (lines 658-754, pull-scan version),
acting on the row stored under `reqID`.  The update branch persists the
mutated record via `database.UpdateMeson` (which writes chain_b,
amount_b, action_b, tx_hash_b, is_check) BEFORE running the action-pair
and amount validations, exactly as the source does. -/
def meson_handle (reqID chainName eventName : String) (createdTime : Int)
    (amount : Nat) (txHash : String) (dbOk : Bool) (stored : Option Meson) :
    Option Meson × HandleResult :=
  match stored with
  | some existing =>
    if existing.chainB ≠ "" then
      (some existing, .conflictChainB)
    else
      let updated : Meson :=
        { existing with
          chainB := chainName
          amountB := amount
          actionB := eventName
          txHashB := txHash
          isCheck := existing.amountA == amount }
      if dbOk then
        if !(meson_event updated.actionA updated.actionB) then
          (some updated, .mismatchedEvent)
        else if !updated.isCheck then
          (some updated, .amountMismatch)
        else
          (some updated, .crossChainSuccess)
      else
        (some existing, .updateFailed)
  | none =>
    let fresh : Meson :=
      { reqID := reqID
        chainA := chainName
        chainB := ""
        timestamp := createdTime
        amountA := amount
        amountB := 0
        actionA := eventName
        actionB := ""
        txHashA := txHash
        txHashB := ""
        isCheck := false }
    if dbOk then (some fresh, .inserted) else (none, .insertFailed)

/-- One decoded transfer leg as delivered to `meson_handle`. -/
structure TransferLeg where
  chainName : String
  eventName : String
  createdTime : Int
  amount : Nat
  txHash : String
deriving Repr, DecidableEq

/-- Deliver one leg for a fixed reqID. -/
def handleLeg (reqID : String) (leg : TransferLeg) (dbOk : Bool)
    (stored : Option Meson) : Option Meson × HandleResult :=
  meson_handle reqID leg.chainName leg.eventName leg.createdTime
    leg.amount leg.txHash dbOk stored

/-- Deliver a sequence of legs (each with its own database-write
success flag) for a fixed reqID, keeping only the stored state. -/
def runLegs (reqID : String) : List (TransferLeg × Bool) → Option Meson → Option Meson
  | [], stored => stored
  | (leg, ok) :: rest, stored => runLegs reqID rest (handleLeg reqID leg ok stored).1

/-- Swap the leg-A and leg-B field groups of a record, keeping reqID,
timestamp and isCheck. -/
def swapLegs (m : Meson) : Meson :=
  { m with
    chainA := m.chainB
    chainB := m.chainA
    amountA := m.amountB
    amountB := m.amountA
    actionA := m.actionB
    actionB := m.actionA
    txHashA := m.txHashB
    txHashB := m.txHashA }

/-! ## Identifier codec (isMyToken, getAmountFromReqID,
getCreatedTimeFromReqID from main.go lines 1005-1045) -/

/-- Token-index extraction inside isMyToken: `Rsh 192`, `Uint64`
(low 64 bits), then `& 0xFF`. -/
def tokenIndexOf (reqId : Nat) : Nat :=
  ((reqId / 2 ^ 192) % 2 ^ 64) % 2 ^ 8

/-- isMyToken from main.go. -/
def isMyToken (reqId myTokenIndex : Nat) : Bool :=
  tokenIndexOf reqId == myTokenIndex

/-- The raw amount field extracted by getAmountFromReqID: `Rsh 128`,
`Uint64` (low 64 bits), then the no-op mask `& 0xFFFFFFFFFFFFFFFF`. -/
def amountFieldOf (reqId : Nat) : Nat :=
  (reqId / 2 ^ 128) % 2 ^ 64

/-- getAmountFromReqID from main.go.  `none` models the
"amount must be greater than zero" error.  For decimals > 6 the
multiplier is `big.Exp(10, decimals-6).Uint64()` (low 64 bits) and the
product is a wrapping uint64 multiplication; for decimals ≤ 6 the
divisor fits in uint64 and the division truncates. -/
def getAmountFromReqID (reqId : Nat) (decimals : Nat) : Option Nat :=
  let amount := amountFieldOf reqId
  if amount = 0 then
    none
  else if decimals > 6 then
    let multiplier := (10 ^ (decimals - 6)) % 2 ^ 64
    some ((amount * multiplier) % 2 ^ 64)
  else
    let divisor := 10 ^ (6 - decimals)
    some (amount / divisor)

/-- getCreatedTimeFromReqID from main.go: `Rsh 208`, `Uint64`
(low 64 bits), then `& 0xFFFFFFFFFF`. -/
def getCreatedTimeFromReqID (reqId : Nat) : Nat :=
  ((reqId / 2 ^ 208) % 2 ^ 64) % 2 ^ 40

/-- processEvent from main.go (lines 758-792): drop the event unless
the token index matches; drop it (no database access) when amount
decoding fails; otherwise forward the decoded leg to meson_handle.
`reqIdHex` carries `reqID.Hex()`. -/
def processEvent (chainName eventName : String) (reqId : Nat)
    (reqIdHex : String) (txHash : String) (mesonIndex decimals : Nat)
    (dbOk : Bool) (stored : Option Meson) : Option Meson :=
  if isMyToken reqId mesonIndex then
    match getAmountFromReqID reqId decimals with
    | none => stored
    | some amount =>
      (meson_handle reqIdHex chainName eventName
        (Int.ofNat (getCreatedTimeFromReqID reqId)) amount txHash dbOk stored).1
  else
    stored

/-! ## Resumable scanner (getLastBlockNumber, saveLastBlockNumber and
the scan loop body of connectAndListen, main.go lines 830-960) -/

/-- blockStep constant from main.go. -/
def blockStep : Nat := 5000

/-- getLastBlockNumber from main.go: if no checkpoint file exists for
the chain, use the configured start block; otherwise the unmarshalled
file content. -/
def getLastBlockNumber (fileContent : Option Nat) (startBlockConfig : Nat) : Nat :=
  match fileContent with
  | none => startBlockConfig
  | some n => n

/-- One raw log entry as dispatched by the scan loop: its topic-derived
event name, the numeric reqId from topics[1], its hex form, and the
transaction hash. -/
structure LogEvent where
  eventName : String
  reqId : Nat
  reqIdHex : String
  txHash : String
deriving Repr, DecidableEq

/-- The whole stored table, keyed by numeric reqId. -/
def Db := Nat → Option Meson

/-- Dispatch of one log entry in the scan loop: only the two recognized
event topics are processed (via processEvent); anything else is
ignored.  Database writes inside the loop are taken to succeed. -/
def dispatchLog (chainName : String) (mesonIndex decimals : Nat)
    (e : LogEvent) (db : Db) : Db :=
  if e.eventName == "TokenMintExecuted" || e.eventName == "TokenBurnExecuted" then
    fun k =>
      if k = e.reqId then
        processEvent chainName e.eventName e.reqId e.reqIdHex e.txHash
          mesonIndex decimals true (db k)
      else db k
  else db

/-- Process every log of a fetched range in order. -/
def processLogs (chainName : String) (mesonIndex decimals : Nat) :
    List LogEvent → Db → Db
  | [], db => db
  | e :: rest, db =>
    processLogs chainName mesonIndex decimals rest
      (dispatchLog chainName mesonIndex decimals e db)

/-- What one iteration of the scan loop did: waited because the head is
too close, failed the log fetch (range retried, checkpoint untouched),
or processed the inclusive block range [fromBlock, toBlock]. -/
inductive ScanResult where
  | idle
  | fetchFailed
  | processed (fromBlock toBlock : Nat)
deriving Repr, DecidableEq

/-- Scanner state: the next FromBlock of the loop, the checkpoint-file
content, and the stored table. -/
structure ScanState where
  startBlock : Nat
  persisted : Option Nat
  db : Db

/-- One iteration of the scan loop body in connectAndListen:
if latestBlock ≤ startBlock + 100 wait; else endBlock :=
min(startBlock + blockStep, latestBlock); fetch logs over
[startBlock, endBlock]; on fetch failure retry without advancing;
otherwise process every log, set startBlock := endBlock + 1 and persist
it (a failed persist is only logged: the in-memory cursor still
advances). -/
def scanIteration (chainName : String) (mesonIndex decimals : Nat)
    (latestBlock : Nat) (fetchOk saveOk : Bool) (events : List LogEvent)
    (s : ScanState) : ScanState × ScanResult :=
  if latestBlock ≤ s.startBlock + 100 then
    (s, .idle)
  else
    let endBlock := if s.startBlock + blockStep > latestBlock then latestBlock else s.startBlock + blockStep
    if fetchOk then
      ({ startBlock := endBlock + 1
         persisted := if saveOk then some (endBlock + 1) else s.persisted
         db := processLogs chainName mesonIndex decimals events s.db },
       .processed s.startBlock endBlock)
    else
      (s, .fetchFailed)

/-- The initial scanner state after a restart: the loop's first
FromBlock comes from getLastBlockNumber. -/
def initialScanState (fileContent : Option Nat) (startBlockConfig : Nat)
    (db : Db) : ScanState :=
  { startBlock := getLastBlockNumber fileContent startBlockConfig
    persisted := fileContent
    db := db }

/-! ## Helper lemmas -/

/-- Boolean natural-number equality is symmetric. -/
lemma nat_beq_symm (x y : Nat) : (x == y) = (y == x) := by
  by_cases h : x = y
  · subst h; rfl
  · have h2 : ¬ y = x := fun hyx => h hyx.symm
    simp [h, h2]

/-- Multiplying by a value already reduced modulo n agrees, modulo n,
with multiplying by the unreduced value. -/
lemma mul_mod_low (a p n : Nat) : (a * (p % n)) % n = (a * p) % n := by
  rw [Nat.mul_mod, Nat.mod_mod_of_dvd _ dvd_rfl, ← Nat.mul_mod]

/-- The raw amount field is a 64-bit value. -/
lemma amountFieldOf_lt (reqId : Nat) : amountFieldOf reqId < 2 ^ 64 :=
  Nat.mod_lt _ (by norm_num)

/-- Evaluation of getAmountFromReqID on a non-zero amount field, all
three decimal regimes at once (the wrapping multiply for decimals > 6
written as a single product reduced modulo 2^64). -/
lemma getAmount_eval (reqId d : Nat) (h : amountFieldOf reqId ≠ 0) :
    getAmountFromReqID reqId d =
      some (if 6 < d then (amountFieldOf reqId * 10 ^ (d - 6)) % 2 ^ 64
            else amountFieldOf reqId / 10 ^ (6 - d)) := by
  unfold getAmountFromReqID
  by_cases hd : 6 < d
  · simp only [h, if_false, hd, if_true, gt_iff_lt]
    rw [mul_mod_low]
  · simp only [h, if_false, hd, if_true, gt_iff_lt]

/-! ## C4: amount rescale reference vectors -/

/-- C4 counterexample: the spec vector "decimals=18 with raw amount
10^18 yields canonical amount 10^6" fails on the code, which multiplies
(rather than divides) by 10^12 in wrapping uint64 arithmetic. -/
theorem c4_decimals18_vector_fails :
    getAmountFromReqID (10 ^ 18 * 2 ^ 128) 18 ≠ some (10 ^ 6) := by decide

/-- C4 (amended): decimals=6 returns the extracted raw amount
unchanged; decimals=18 with raw amount 10^18 returns the wrapped
product (10^18 * 10^12) mod 2^64 = 5076944270305263616; decimals=0
with raw amount 5 returns 0. -/
theorem c4_rescale_vectors :
    (∀ reqId : Nat, amountFieldOf reqId ≠ 0 →
      getAmountFromReqID reqId 6 = some (amountFieldOf reqId)) ∧
    getAmountFromReqID (10 ^ 18 * 2 ^ 128) 18 =
      some ((10 ^ 18 * 10 ^ 12) % 2 ^ 64) ∧
    getAmountFromReqID (5 * 2 ^ 128) 0 = some 0 := by
  refine ⟨fun reqId h => ?_, by decide, by decide⟩
  rw [getAmount_eval reqId 6 h]
  norm_num

/-- C4 witness: the decimals=6 identity at a concrete identifier. -/
theorem c4_rescale_vectors_witness :
    getAmountFromReqID (2 ^ 128) 6 = some (amountFieldOf (2 ^ 128)) :=
  c4_rescale_vectors.1 (2 ^ 128) (by decide)

/-! ## C5: general amount normalization rule -/

/-- C5 counterexample: for decimals=7 and raw amount 2^63 the exact
product 2^63 * 10 is not returned; the uint64 multiplication wraps to
(2^63 * 10) mod 2^64 = 0, so the "exact integer arithmetic" part of
the claim fails. -/
theorem c5_exact_arithmetic_fails :
    getAmountFromReqID (2 ^ 63 * 2 ^ 128) 7 ≠ some (2 ^ 63 * 10) := by decide

/-- C5 (amended): for every identifier with non-zero extracted amount
field and every decimals d, getAmountFromReqID returns
(raw * 10^(d-6)) mod 2^64 when d > 6 (a wrapping uint64 product, not
exact arithmetic), and raw integer-divided by 10^(6-d) (truncating,
exact) when d ≤ 6, the d = 6 case being division by 1, i.e. identity. -/
theorem c5_normalization_rule (reqId d : Nat) (h : amountFieldOf reqId ≠ 0) :
    getAmountFromReqID reqId d =
      some (if 6 < d then (amountFieldOf reqId * 10 ^ (d - 6)) % 2 ^ 64
            else amountFieldOf reqId / 10 ^ (6 - d)) :=
  getAmount_eval reqId d h

/-- C5 witness: the amended rule evaluated at decimals=18 and raw
amount 3. -/
theorem c5_normalization_rule_witness :
    getAmountFromReqID (3 * 2 ^ 128) 18 =
      some (if 6 < 18 then (amountFieldOf (3 * 2 ^ 128) * 10 ^ (18 - 6)) % 2 ^ 64
            else amountFieldOf (3 * 2 ^ 128) / 10 ^ (6 - 18)) :=
  c5_normalization_rule (3 * 2 ^ 128) 18 (by decide)

/-! ## C10: wrapping multiply for decimals > 6 -/

/-- C10: for decimals d > 6 and a non-zero extracted raw amount, the
returned canonical amount is (raw * 10^(d-6)) mod 2^64 — the uint64
product silently wraps instead of using unbounded precision. -/
theorem c10_uint64_wrap (reqId d : Nat) (hd : 6 < d)
    (h : amountFieldOf reqId ≠ 0) :
    getAmountFromReqID reqId d =
      some ((amountFieldOf reqId * 10 ^ (d - 6)) % 2 ^ 64) := by
  rw [getAmount_eval reqId d h, if_pos hd]

/-- C10 witness: decimals=30 and raw amount 7 at a concrete
identifier. -/
theorem c10_uint64_wrap_witness :
    getAmountFromReqID (7 * 2 ^ 128) 30 =
      some ((amountFieldOf (7 * 2 ^ 128) * 10 ^ (30 - 6)) % 2 ^ 64) :=
  c10_uint64_wrap (7 * 2 ^ 128) 30 (by decide) (by decide)

/-! ## C8: bit-field extraction -/

/-- The intermediate 64-bit truncation inside the token-index
extraction is harmless: 2^8 divides 2^64. -/
lemma tokenIndexOf_eq (r : Nat) : tokenIndexOf r = r / 2 ^ 192 % 2 ^ 8 := by
  unfold tokenIndexOf
  exact Nat.mod_mod_of_dvd _ (pow_dvd_pow 2 (by norm_num))

/-- The intermediate 64-bit truncation inside the created-time
extraction is harmless: 2^40 divides 2^64. -/
lemma getCreatedTime_eq (r : Nat) :
    getCreatedTimeFromReqID r = r / 2 ^ 208 % 2 ^ 40 := by
  unfold getCreatedTimeFromReqID
  exact Nat.mod_mod_of_dvd _ (pow_dvd_pow 2 (by norm_num))

/-- C8: for 256-bit identifiers the codec extracts the token index as
bits [192,200) (an 8-bit value), the raw amount as bits [128,192)
(a 64-bit value), and the creation time as bits [208,248) (a 40-bit
value); each extractor depends only on its own bit slice. -/
theorem c8_bitfield_extraction (r₁ r₂ : Nat)
    (h₁ : r₁ < 2 ^ 256) (h₂ : r₂ < 2 ^ 256) :
    (tokenIndexOf r₁ = r₁ / 2 ^ 192 % 2 ^ 8 ∧ tokenIndexOf r₁ < 2 ^ 8) ∧
    (amountFieldOf r₁ = r₁ / 2 ^ 128 % 2 ^ 64 ∧ amountFieldOf r₁ < 2 ^ 64) ∧
    (getCreatedTimeFromReqID r₁ = r₁ / 2 ^ 208 % 2 ^ 40 ∧
      getCreatedTimeFromReqID r₁ < 2 ^ 40) ∧
    (r₁ / 2 ^ 192 % 2 ^ 8 = r₂ / 2 ^ 192 % 2 ^ 8 →
      tokenIndexOf r₁ = tokenIndexOf r₂) ∧
    (r₁ / 2 ^ 128 % 2 ^ 64 = r₂ / 2 ^ 128 % 2 ^ 64 →
      amountFieldOf r₁ = amountFieldOf r₂) ∧
    (r₁ / 2 ^ 208 % 2 ^ 40 = r₂ / 2 ^ 208 % 2 ^ 40 →
      getCreatedTimeFromReqID r₁ = getCreatedTimeFromReqID r₂) := by
  refine ⟨⟨tokenIndexOf_eq r₁, ?_⟩, ⟨rfl, amountFieldOf_lt r₁⟩,
    ⟨getCreatedTime_eq r₁, ?_⟩, ?_, ?_, ?_⟩
  · rw [tokenIndexOf_eq]; exact Nat.mod_lt _ (by norm_num)
  · rw [getCreatedTime_eq]; exact Nat.mod_lt _ (by norm_num)
  · intro h; rw [tokenIndexOf_eq, tokenIndexOf_eq, h]
  · intro h; unfold amountFieldOf; exact h
  · intro h; rw [getCreatedTime_eq, getCreatedTime_eq, h]

/-- C8 witness: two concrete identifiers agreeing on all three slices
but differing in untracked bits. -/
theorem c8_bitfield_extraction_witness :
    (tokenIndexOf (77 * 2 ^ 208 + 3 * 2 ^ 192 + 1000 * 2 ^ 128) =
        (77 * 2 ^ 208 + 3 * 2 ^ 192 + 1000 * 2 ^ 128) / 2 ^ 192 % 2 ^ 8 ∧
      tokenIndexOf (77 * 2 ^ 208 + 3 * 2 ^ 192 + 1000 * 2 ^ 128) < 2 ^ 8) ∧
    (amountFieldOf (77 * 2 ^ 208 + 3 * 2 ^ 192 + 1000 * 2 ^ 128) =
        (77 * 2 ^ 208 + 3 * 2 ^ 192 + 1000 * 2 ^ 128) / 2 ^ 128 % 2 ^ 64 ∧
      amountFieldOf (77 * 2 ^ 208 + 3 * 2 ^ 192 + 1000 * 2 ^ 128) < 2 ^ 64) ∧
    (getCreatedTimeFromReqID (77 * 2 ^ 208 + 3 * 2 ^ 192 + 1000 * 2 ^ 128) =
        (77 * 2 ^ 208 + 3 * 2 ^ 192 + 1000 * 2 ^ 128) / 2 ^ 208 % 2 ^ 40 ∧
      getCreatedTimeFromReqID (77 * 2 ^ 208 + 3 * 2 ^ 192 + 1000 * 2 ^ 128) < 2 ^ 40) ∧
    ((77 * 2 ^ 208 + 3 * 2 ^ 192 + 1000 * 2 ^ 128) / 2 ^ 192 % 2 ^ 8 =
        (77 * 2 ^ 208 + 3 * 2 ^ 192 + 1000 * 2 ^ 128 + 9) / 2 ^ 192 % 2 ^ 8 →
      tokenIndexOf (77 * 2 ^ 208 + 3 * 2 ^ 192 + 1000 * 2 ^ 128) =
        tokenIndexOf (77 * 2 ^ 208 + 3 * 2 ^ 192 + 1000 * 2 ^ 128 + 9)) ∧
    ((77 * 2 ^ 208 + 3 * 2 ^ 192 + 1000 * 2 ^ 128) / 2 ^ 128 % 2 ^ 64 =
        (77 * 2 ^ 208 + 3 * 2 ^ 192 + 1000 * 2 ^ 128 + 9) / 2 ^ 128 % 2 ^ 64 →
      amountFieldOf (77 * 2 ^ 208 + 3 * 2 ^ 192 + 1000 * 2 ^ 128) =
        amountFieldOf (77 * 2 ^ 208 + 3 * 2 ^ 192 + 1000 * 2 ^ 128 + 9)) ∧
    ((77 * 2 ^ 208 + 3 * 2 ^ 192 + 1000 * 2 ^ 128) / 2 ^ 208 % 2 ^ 40 =
        (77 * 2 ^ 208 + 3 * 2 ^ 192 + 1000 * 2 ^ 128 + 9) / 2 ^ 208 % 2 ^ 40 →
      getCreatedTimeFromReqID (77 * 2 ^ 208 + 3 * 2 ^ 192 + 1000 * 2 ^ 128) =
        getCreatedTimeFromReqID (77 * 2 ^ 208 + 3 * 2 ^ 192 + 1000 * 2 ^ 128 + 9)) :=
  c8_bitfield_extraction
    (77 * 2 ^ 208 + 3 * 2 ^ 192 + 1000 * 2 ^ 128)
    (77 * 2 ^ 208 + 3 * 2 ^ 192 + 1000 * 2 ^ 128 + 9)
    (by norm_num) (by norm_num)

/-! ## C9: InvalidAmount error condition and event dropping -/

/-- C9: getAmountFromReqID fails exactly when the extracted 64-bit
amount field is zero; on that failure processEvent leaves the stored
record untouched (no database operation); and the scan iteration's
cursor, persisted checkpoint and reported range are the same whatever
the fetched events are — per-event outcomes never affect the scan loop
or checkpoint advancement. -/
theorem c9_invalid_amount_drops_event (reqId d mesonIndex : Nat)
    (chainName eventName reqIdHex txHash chainName2 : String)
    (dbOk : Bool) (stored : Option Meson)
    (mi2 d2 latestBlock : Nat) (fetchOk saveOk : Bool)
    (events events2 : List LogEvent) (s : ScanState) :
    (getAmountFromReqID reqId d = none ↔ amountFieldOf reqId = 0) ∧
    (amountFieldOf reqId = 0 →
      processEvent chainName eventName reqId reqIdHex txHash
        mesonIndex d dbOk stored = stored) ∧
    ((scanIteration chainName2 mi2 d2 latestBlock fetchOk saveOk events s).1.startBlock =
        (scanIteration chainName2 mi2 d2 latestBlock fetchOk saveOk events2 s).1.startBlock ∧
      (scanIteration chainName2 mi2 d2 latestBlock fetchOk saveOk events s).1.persisted =
        (scanIteration chainName2 mi2 d2 latestBlock fetchOk saveOk events2 s).1.persisted ∧
      (scanIteration chainName2 mi2 d2 latestBlock fetchOk saveOk events s).2 =
        (scanIteration chainName2 mi2 d2 latestBlock fetchOk saveOk events2 s).2) := by
  refine ⟨?_, ?_, ?_⟩
  · unfold getAmountFromReqID
    by_cases h : amountFieldOf reqId = 0
    · simp [h]
    · simp only [h, if_false, iff_false]
      split_ifs <;> simp
  · intro h
    unfold processEvent getAmountFromReqID
    simp [h]
  · unfold scanIteration
    split_ifs <;> simp

/-- C9 witness: an identifier whose amount field is zero, at concrete
scan parameters. -/
theorem c9_invalid_amount_drops_event_witness :
    (getAmountFromReqID (5 * 2 ^ 192) 6 = none ↔ amountFieldOf (5 * 2 ^ 192) = 0) ∧
    (amountFieldOf (5 * 2 ^ 192) = 0 →
      processEvent "Ethereum" "TokenBurnExecuted" (5 * 2 ^ 192) "0x09" "0xt"
        5 6 true none = none) ∧
    ((scanIteration "BSC" 2 6 9000 true true
          [{ eventName := "TokenBurnExecuted", reqId := 5 * 2 ^ 192,
             reqIdHex := "0x09", txHash := "0xt" }]
          { startBlock := 200, persisted := some 200, db := fun _ => none }).1.startBlock =
        (scanIteration "BSC" 2 6 9000 true true []
          { startBlock := 200, persisted := some 200, db := fun _ => none }).1.startBlock ∧
      (scanIteration "BSC" 2 6 9000 true true
          [{ eventName := "TokenBurnExecuted", reqId := 5 * 2 ^ 192,
             reqIdHex := "0x09", txHash := "0xt" }]
          { startBlock := 200, persisted := some 200, db := fun _ => none }).1.persisted =
        (scanIteration "BSC" 2 6 9000 true true []
          { startBlock := 200, persisted := some 200, db := fun _ => none }).1.persisted ∧
      (scanIteration "BSC" 2 6 9000 true true
          [{ eventName := "TokenBurnExecuted", reqId := 5 * 2 ^ 192,
             reqIdHex := "0x09", txHash := "0xt" }]
          { startBlock := 200, persisted := some 200, db := fun _ => none }).2 =
        (scanIteration "BSC" 2 6 9000 true true []
          { startBlock := 200, persisted := some 200, db := fun _ => none }).2) :=
  c9_invalid_amount_drops_event (5 * 2 ^ 192) 6 5 "Ethereum"
    "TokenBurnExecuted" "0x09" "0xt" "BSC" true none 2 6 9000 true true
    [{ eventName := "TokenBurnExecuted", reqId := 5 * 2 ^ 192,
       reqIdHex := "0x09", txHash := "0xt" }] []
    { startBlock := 200, persisted := some 200, db := fun _ => none }

/-! ## meson_handle branch lemmas -/

/-- When the stored record already has a non-empty chainB, meson_handle
raises the conflicting-second-leg alert, returns that error and leaves
the record untouched. -/
lemma meson_handle_conflict (reqID chainName eventName : String)
    (createdTime : Int) (amount : Nat) (txHash : String) (dbOk : Bool)
    (existing : Meson) (hB : existing.chainB ≠ "") :
    meson_handle reqID chainName eventName createdTime amount txHash dbOk
        (some existing) = (some existing, .conflictChainB) := by
  simp [meson_handle, hB]

/-- The stored state produced by the leg-B update branch (database
write succeeding): chainB, amountB, actionB, txHashB overwritten and
isCheck recomputed, whatever the later validations decide. -/
lemma meson_handle_fst_update (reqID chainName eventName : String)
    (createdTime : Int) (amount : Nat) (txHash : String)
    (existing : Meson) (hB : existing.chainB = "") :
    (meson_handle reqID chainName eventName createdTime amount txHash true
        (some existing)).1 =
      some { existing with
             chainB := chainName
             amountB := amount
             actionB := eventName
             txHashB := txHash
             isCheck := existing.amountA == amount } := by
  simp only [meson_handle, hB, ne_eq, not_true_eq_false, if_false, if_true]
  split_ifs <;> rfl

/-- A failed leg-B database write leaves the stored record unchanged. -/
lemma meson_handle_update_failed (reqID chainName eventName : String)
    (createdTime : Int) (amount : Nat) (txHash : String)
    (existing : Meson) (hB : existing.chainB = "") :
    meson_handle reqID chainName eventName createdTime amount txHash false
        (some existing) = (some existing, .updateFailed) := by
  simp [meson_handle, hB]

/-- Insertion of a fresh first leg. -/
lemma meson_handle_insert (reqID chainName eventName : String)
    (createdTime : Int) (amount : Nat) (txHash : String) :
    meson_handle reqID chainName eventName createdTime amount txHash true none =
      (some { reqID := reqID, chainA := chainName, chainB := "",
              timestamp := createdTime, amountA := amount, amountB := 0,
              actionA := eventName, actionB := "", txHashA := txHash,
              txHashB := "", isCheck := false }, .inserted) := rfl

/-- A failed insert stores nothing. -/
lemma meson_handle_insert_failed (reqID chainName eventName : String)
    (createdTime : Int) (amount : Nat) (txHash : String) :
    meson_handle reqID chainName eventName createdTime amount txHash false none =
      (none, .insertFailed) := rfl

/-! ## C1: idempotence of leg handling (reference behavior) -/

/-- C1: delivering the identical leg twice for a fresh transferID is
NOT handled idempotently by the code: the second call records the
re-delivered first leg as leg B (chainB set to the same chain, txHashB
to the same hash), persists isCheck = true because the equal amount
matches itself, and then raises the mismatched-action alert and error
because both actions are the same — the state mutation has already
been persisted at that point. -/
theorem c1_redelivery_corrupts_record :
    handleLeg "0x01"
      { chainName := "Ethereum", eventName := "TokenBurnExecuted",
        createdTime := 7, amount := 1000, txHash := "0xa" } true
      ((handleLeg "0x01"
        { chainName := "Ethereum", eventName := "TokenBurnExecuted",
          createdTime := 7, amount := 1000, txHash := "0xa" } true none).1) =
      (some { reqID := "0x01", chainA := "Ethereum", chainB := "Ethereum",
              timestamp := 7, amountA := 1000, amountB := 1000,
              actionA := "TokenBurnExecuted", actionB := "TokenBurnExecuted",
              txHashA := "0xa", txHashB := "0xa", isCheck := true },
       HandleResult.mismatchedEvent) := by decide

/-! ## C2: commutativity of arrival order -/

/-- C2 counterexample: two legs of the same transfer delivered in the
two orders (all database writes succeeding) do not produce the same
stored record — the chainA/chainB (and the other leg-A/leg-B field
pairs) are exchanged. -/
theorem c2_order_changes_stored_record :
    runLegs "0x02"
      [({ chainName := "Ethereum", eventName := "TokenBurnExecuted",
          createdTime := 50, amount := 5, txHash := "0xa" }, true),
       ({ chainName := "BSC", eventName := "TokenMintExecuted",
          createdTime := 50, amount := 5, txHash := "0xb" }, true)] none ≠
    runLegs "0x02"
      [({ chainName := "BSC", eventName := "TokenMintExecuted",
          createdTime := 50, amount := 5, txHash := "0xb" }, true),
       ({ chainName := "Ethereum", eventName := "TokenBurnExecuted",
          createdTime := 50, amount := 5, txHash := "0xa" }, true)] none := by
  decide

/-- C2 (amended): for two legs of the same transferID (hence equal
identifier-derived creation times), with both database operations
succeeding, delivering B then A yields exactly the record of delivering
A then B with the leg-A and leg-B field groups swapped; transferID,
timestamp and isMatched agree between the two orders. -/
theorem c2_commutative_up_to_swap (reqID : String) (a b : TransferLeg)
    (hct : a.createdTime = b.createdTime) :
    runLegs reqID [(b, true), (a, true)] none =
      Option.map swapLegs (runLegs reqID [(a, true), (b, true)] none) := by
  simp only [runLegs, handleLeg]
  rw [meson_handle_insert, meson_handle_insert]
  rw [meson_handle_fst_update _ _ _ _ _ _ _ rfl,
    meson_handle_fst_update _ _ _ _ _ _ _ rfl]
  simp only [Option.map_some]
  congr 1
  simp [swapLegs, hct, nat_beq_symm]

/-- C2 amended-claim witness: concrete burn and mint legs with equal
creation times. -/
theorem c2_commutative_up_to_swap_witness :
    runLegs "0x02w"
      [({ chainName := "BSC", eventName := "TokenMintExecuted",
          createdTime := 60, amount := 9, txHash := "0xd" }, true),
       ({ chainName := "Ethereum", eventName := "TokenBurnExecuted",
          createdTime := 60, amount := 9, txHash := "0xc" }, true)] none =
      Option.map swapLegs (runLegs "0x02w"
        [({ chainName := "Ethereum", eventName := "TokenBurnExecuted",
            createdTime := 60, amount := 9, txHash := "0xc" }, true),
         ({ chainName := "BSC", eventName := "TokenMintExecuted",
            createdTime := 60, amount := 9, txHash := "0xd" }, true)] none) :=
  c2_commutative_up_to_swap "0x02w"
    { chainName := "Ethereum", eventName := "TokenBurnExecuted",
      createdTime := 60, amount := 9, txHash := "0xc" }
    { chainName := "BSC", eventName := "TokenMintExecuted",
      createdTime := 60, amount := 9, txHash := "0xd" }
    rfl

/-! ## C3: conflict atomicity -/

/-- C3: when the stored record's chainB is already populated, a
meson_handle call with a leg differing from the stored leg B raises the
conflicting-second-leg alert, returns that error, and performs no
database mutation — the stored record is returned unchanged. -/
theorem c3_conflict_is_atomic (reqID chainName eventName : String)
    (createdTime : Int) (amount : Nat) (txHash : String) (dbOk : Bool)
    (existing : Meson) (hB : existing.chainB ≠ "")
    (hdiff : chainName ≠ existing.chainB ∨ eventName ≠ existing.actionB ∨
      amount ≠ existing.amountB ∨ txHash ≠ existing.txHashB) :
    meson_handle reqID chainName eventName createdTime amount txHash dbOk
        (some existing) = (some existing, .conflictChainB) :=
  meson_handle_conflict reqID chainName eventName createdTime amount txHash
    dbOk existing hB

/-- C3 witness: a concrete fully-populated record hit by a different
leg. -/
theorem c3_conflict_is_atomic_witness :
    meson_handle "0x03" "Polygon" "TokenMintExecuted" 80 77 "0xz" true
        (some { reqID := "0x03", chainA := "Ethereum", chainB := "BSC",
                timestamp := 80, amountA := 77, amountB := 77,
                actionA := "TokenBurnExecuted", actionB := "TokenMintExecuted",
                txHashA := "0xa", txHashB := "0xb", isCheck := true }) =
      (some { reqID := "0x03", chainA := "Ethereum", chainB := "BSC",
              timestamp := 80, amountA := 77, amountB := 77,
              actionA := "TokenBurnExecuted", actionB := "TokenMintExecuted",
              txHashA := "0xa", txHashB := "0xb", isCheck := true },
       HandleResult.conflictChainB) :=
  c3_conflict_is_atomic "0x03" "Polygon" "TokenMintExecuted" 80 77 "0xz" true
    { reqID := "0x03", chainA := "Ethereum", chainB := "BSC",
      timestamp := 80, amountA := 77, amountB := 77,
      actionA := "TokenBurnExecuted", actionB := "TokenMintExecuted",
      txHashA := "0xa", txHashB := "0xb", isCheck := true }
    (by decide) (Or.inl (by decide))

/-! ## C6: the isCheck invariant -/

/-- One meson_handle call with a non-empty chain name preserves the
isCheck invariant. -/
lemma handleLeg_preserves_inv (reqID : String) (leg : TransferLeg)
    (ok : Bool) (hne : leg.chainName ≠ "") (stored : Option Meson)
    (hs : ∀ m, stored = some m →
      (m.isCheck = true ↔ (m.chainB ≠ "" ∧ m.amountA = m.amountB))) :
    ∀ m, (handleLeg reqID leg ok stored).1 = some m →
      (m.isCheck = true ↔ (m.chainB ≠ "" ∧ m.amountA = m.amountB)) := by
  intro m hm
  cases stored with
  | none =>
    cases ok with
    | false =>
      rw [handleLeg, meson_handle_insert_failed] at hm
      exact Option.noConfusion hm
    | true =>
      rw [handleLeg, meson_handle_insert] at hm
      simp only [Option.some.injEq] at hm
      subst hm
      simp
  | some existing =>
    by_cases hB : existing.chainB = ""
    · cases ok with
      | false =>
        rw [handleLeg, meson_handle_update_failed _ _ _ _ _ _ _ hB] at hm
        simp only [Option.some.injEq] at hm
        subst hm
        exact hs existing rfl
      | true =>
        rw [handleLeg, meson_handle_fst_update _ _ _ _ _ _ _ hB] at hm
        simp only [Option.some.injEq] at hm
        subst hm
        simp [hne]
    · rw [handleLeg, meson_handle_conflict _ _ _ _ _ _ _ _ hB] at hm
      simp only [Option.some.injEq] at hm
      subst hm
      exact hs existing rfl

/-- Any state reachable by a sequence of meson_handle calls from a
state satisfying the isCheck invariant still satisfies it. -/
lemma runLegs_preserves_inv (reqID : String) :
    ∀ (legs : List (TransferLeg × Bool)) (stored : Option Meson),
      (∀ p ∈ legs, p.1.chainName ≠ "") →
      (∀ m, stored = some m →
        (m.isCheck = true ↔ (m.chainB ≠ "" ∧ m.amountA = m.amountB))) →
      ∀ m, runLegs reqID legs stored = some m →
        (m.isCheck = true ↔ (m.chainB ≠ "" ∧ m.amountA = m.amountB))
  | [], stored, _, hs, m, hm => hs m hm
  | (leg, ok) :: rest, stored, hne, hs, m, hm =>
    runLegs_preserves_inv reqID rest (handleLeg reqID leg ok stored).1
      (fun q hq => hne q (List.mem_cons_of_mem _ hq))
      (handleLeg_preserves_inv reqID leg ok
        (hne (leg, ok) (List.mem_cons_self _ _)) stored hs)
      m hm

/-- C6: every record reachable from the empty store by any sequence of
meson_handle calls with non-empty chain names satisfies: isCheck is
true exactly when chainB is populated and the two amounts are equal —
isCheck is recomputed on the leg-B update, never carried over. -/
theorem c6_isCheck_invariant (reqID : String)
    (legs : List (TransferLeg × Bool))
    (hne : ∀ p ∈ legs, p.1.chainName ≠ "") (m : Meson)
    (hrun : runLegs reqID legs none = some m) :
    m.isCheck = true ↔ (m.chainB ≠ "" ∧ m.amountA = m.amountB) :=
  runLegs_preserves_inv reqID legs none hne
    (fun _ h => Option.noConfusion h) m hrun

/-- C6 witness: a matched record produced by a concrete burn/mint
pair. -/
theorem c6_isCheck_invariant_witness :
    ({ reqID := "0x06", chainA := "Ethereum", chainB := "BSC",
       timestamp := 9, amountA := 42, amountB := 42,
       actionA := "TokenBurnExecuted", actionB := "TokenMintExecuted",
       txHashA := "0xa", txHashB := "0xb", isCheck := true } : Meson).isCheck = true ↔
      (({ reqID := "0x06", chainA := "Ethereum", chainB := "BSC",
          timestamp := 9, amountA := 42, amountB := 42,
          actionA := "TokenBurnExecuted", actionB := "TokenMintExecuted",
          txHashA := "0xa", txHashB := "0xb", isCheck := true } : Meson).chainB ≠ "" ∧
        ({ reqID := "0x06", chainA := "Ethereum", chainB := "BSC",
           timestamp := 9, amountA := 42, amountB := 42,
           actionA := "TokenBurnExecuted", actionB := "TokenMintExecuted",
           txHashA := "0xa", txHashB := "0xb", isCheck := true } : Meson).amountA =
          ({ reqID := "0x06", chainA := "Ethereum", chainB := "BSC",
             timestamp := 9, amountA := 42, amountB := 42,
             actionA := "TokenBurnExecuted", actionB := "TokenMintExecuted",
             txHashA := "0xa", txHashB := "0xb", isCheck := true } : Meson).amountB) :=
  c6_isCheck_invariant "0x06"
    [({ chainName := "Ethereum", eventName := "TokenBurnExecuted",
        createdTime := 9, amount := 42, txHash := "0xa" }, true),
     ({ chainName := "BSC", eventName := "TokenMintExecuted",
        createdTime := 9, amount := 42, txHash := "0xb" }, true)]
    (by decide)
    { reqID := "0x06", chainA := "Ethereum", chainB := "BSC",
      timestamp := 9, amountA := 42, amountB := 42,
      actionA := "TokenBurnExecuted", actionB := "TokenMintExecuted",
      txHashA := "0xa", txHashB := "0xb", isCheck := true }
    (by decide)

/-! ## C7: scanner resumability -/

/-- C7 counterexample: with a persisted checkpoint file containing 100,
the restarted scanner's first log query starts AT block 100 (the file
stores the next block to scan, one past the last processed range), so
the query does cover a block at or below the file's value — the claim's
"resumes from N+1, never covering any block at or below N" reading is
false. -/
theorem c7_first_query_covers_file_value :
    (scanIteration "Ethereum" 2 6 10000 true true []
        (initialScanState (some 100) 0 (fun _ => none))).2 =
      ScanResult.processed 100 5100 := by decide

/-- C7 (amended): a persisted checkpoint file containing N makes the
restarted scanner resume exactly at block N (N equals one past the last
fully processed block, so nothing is re-scanned and nothing from N
onward is skipped): when the head exceeds N+100 the first query covers
exactly [N, min(N+5000, head)], and the checkpoint is advanced and
persisted to end+1 only after the range is processed without a fetch
error — a failed fetch leaves both the cursor and the persisted value
at N. -/
theorem c7_resume_and_advance (chainName : String) (mesonIndex decimals : Nat)
    (fileN startBlockConfig latestBlock : Nat)
    (events failEvents : List LogEvent) (db0 : Db) (saveOk : Bool)
    (hlag : fileN + 100 < latestBlock) :
    (initialScanState (some fileN) startBlockConfig db0).startBlock = fileN ∧
    (scanIteration chainName mesonIndex decimals latestBlock true true events
        (initialScanState (some fileN) startBlockConfig db0)).2 =
      ScanResult.processed fileN (min (fileN + blockStep) latestBlock) ∧
    (scanIteration chainName mesonIndex decimals latestBlock true true events
        (initialScanState (some fileN) startBlockConfig db0)).1.startBlock =
      min (fileN + blockStep) latestBlock + 1 ∧
    (scanIteration chainName mesonIndex decimals latestBlock true true events
        (initialScanState (some fileN) startBlockConfig db0)).1.persisted =
      some (min (fileN + blockStep) latestBlock + 1) ∧
    (scanIteration chainName mesonIndex decimals latestBlock false saveOk
        failEvents (initialScanState (some fileN) startBlockConfig db0)).1.startBlock =
      fileN ∧
    (scanIteration chainName mesonIndex decimals latestBlock false saveOk
        failEvents (initialScanState (some fileN) startBlockConfig db0)).1.persisted =
      some fileN := by
  have hnot : ¬ latestBlock ≤ fileN + 100 := Nat.not_le.mpr hlag
  have hmin : (if fileN + blockStep > latestBlock then latestBlock
      else fileN + blockStep) = min (fileN + blockStep) latestBlock := by
    rw [min_def]
    by_cases h : fileN + blockStep ≤ latestBlock
    · rw [if_neg (Nat.not_lt.mpr h), if_pos h]
    · rw [if_pos (Nat.lt_of_not_le h), if_neg h]
  refine ⟨rfl, ?_, ?_, ?_, ?_, ?_⟩ <;>
    simp [scanIteration, initialScanState, getLastBlockNumber, hnot, hmin]

/-- C7 amended-claim witness: file content 100, head 10000. -/
theorem c7_resume_and_advance_witness :
    (initialScanState (some 100) 0 (fun _ => none)).startBlock = 100 ∧
    (scanIteration "BSC" 2 6 10000 true true []
        (initialScanState (some 100) 0 (fun _ => none))).2 =
      ScanResult.processed 100 (min (100 + blockStep) 10000) ∧
    (scanIteration "BSC" 2 6 10000 true true []
        (initialScanState (some 100) 0 (fun _ => none))).1.startBlock =
      min (100 + blockStep) 10000 + 1 ∧
    (scanIteration "BSC" 2 6 10000 true true []
        (initialScanState (some 100) 0 (fun _ => none))).1.persisted =
      some (min (100 + blockStep) 10000 + 1) ∧
    (scanIteration "BSC" 2 6 10000 false true []
        (initialScanState (some 100) 0 (fun _ => none))).1.startBlock = 100 ∧
    (scanIteration "BSC" 2 6 10000 false true []
        (initialScanState (some 100) 0 (fun _ => none))).1.persisted = some 100 :=
  c7_resume_and_advance "BSC" 2 6 100 0 10000 [] [] (fun _ => none) true
    (by decide)

end BridgeMonitor
